import Mathlib

/-
Shallow embedding of the Query Execution Gateway of the D1-Inspector
repository: the Cloudflare D1 remote SQL client (src/unnamed/part_000,
class CloudflareD1Service), the in-memory result cache (MemStorage in
src/server/routes.ts) and the two route handlers POST
/api/databases/:id/query and GET /api/databases/:id/tables/:table/rows
(src/server/routes.ts).

Modelling conventions:
- JSON scalar values inside result rows are modelled by their textual
  content (a String); a row is an association list from field name to
  scalar text.  No claim inspects scalar values beyond equality.
- The network is modelled as data: a fetch performed by the service is
  given its outcome (HttpOutcome) as an explicit argument, and each
  handler reports the list of SQL texts it sent to the remote service.
- Exceptions thrown by the service (CloudflareUserError,
  CloudflareSystemError, or a plain Error escaping from fetch) are
  modelled with Except over the D1Error inductive.
- Wall-clock time is modelled by explicit Nat millisecond parameters:
  a request runs at instant `now`; `elapsed` models the value of
  Date.now() - startTime when the handler builds its response.
-/

namespace D1Inspector

/-- A result row: an association list from JSON field name to the
textual content of the scalar stored there. -/
abbrev Row := List (String × String)

/-- Reads a field of a row, as JS property access on a parsed JSON
object (first binding wins). -/
def getField (r : Row) (k : String) : Option String :=
  (r.find? (fun p => p.1 == k)).map (fun p => p.2)

/-- ASCII lowercasing over the character list, as
String.prototype.toLowerCase acts on the ASCII error messages. -/
def toLowerJS (s : String) : String := ⟨s.data.map Char.toLower⟩

/-- Substring test, as the JS String.prototype.includes. -/
def strContains (haystack needle : String) : Bool :=
  (List.range (haystack.length + 1)).any fun i =>
    needle.data.isPrefixOf (haystack.data.drop i)

/-- Models JS parseInt(s, 10): skip leading whitespace, optional sign,
then a maximal run of decimal digits; none models NaN. -/
def parseIntJS (s : String) : Option Int :=
  let cs := s.data.dropWhile fun c =>
    c = ' ' || c = '\t' || c = '\n' || c = '\r'
  let signed : Int × List Char :=
    match cs with
    | '-' :: rest => (-1, rest)
    | '+' :: rest => (1, rest)
    | _ => (1, cs)
  let digits := signed.2.takeWhile Char.isDigit
  if digits.isEmpty then none
  else some (signed.1 *
    (Int.ofNat (digits.foldl (fun acc c => acc * 10 + (c.toNat - 48)) 0)))

/-- Models the JS expression `parseInt(x, 10) || d`: NaN and 0 are both
falsy and fall back to the default. -/
def jsParseOr (s : String) (d : Int) : Int :=
  match parseIntJS s with
  | none => d
  | some v => if v == 0 then d else v

/-- Models the JS expression `x || d` on an optional string (null,
undefined and the empty string are falsy). -/
def jsStrOr (o : Option String) (d : String) : String :=
  match o with
  | none => d
  | some s => if s == "" then d else s

/-- Models createHash(md5).update(query).digest(hex) from node:crypto:
a deterministic content hash of the raw SQL text.  The digest algorithm
itself is outside the repository; only determinism and keying by the
raw text matter to the gateway, so a deterministic rolling hash rendered
as a decimal string stands in for the md5 hex digest. -/
def md5Hex (s : String) : String :=
  toString (s.data.foldl
    (fun acc c => (acc * 131 + c.toNat) % 18446744073709551616) 7)

/-- One element of the errors array of the Cloudflare response envelope;
message is optional because the code guards with error.message?. -/
structure D1ErrorObj where
  message : Option String
deriving DecidableEq, Repr

/-- The result object of the Cloudflare D1 response envelope. -/
structure D1ResultObj where
  results : Option (List Row)
  duration : Option Nat
  changes : Option Int
  count : Option Nat
deriving DecidableEq, Repr

/-- The Cloudflare D1 response envelope (interface CloudflareD1Response). -/
structure CloudflareD1Response where
  success : Bool
  errors : List D1ErrorObj
  result : Option D1ResultObj
deriving DecidableEq, Repr

/-- Outcome of the fetch to the remote service: a 2xx response with a
parsed JSON envelope, a non-2xx HTTP response, or a connection error
(the promise rejecting with a plain Error). -/
inductive HttpOutcome where
  | ok (body : CloudflareD1Response)
  | httpError (status : Nat) (statusText : String)
  | networkError (msg : String)
deriving DecidableEq, Repr

/-- Errors escaping from CloudflareD1Service.executeQuery:
CloudflareUserError, CloudflareSystemError, or a plain Error that was
never wrapped (e.g. a fetch connection failure). -/
inductive D1Error where
  | user (message : String) (originalErrors : List D1ErrorObj)
  | system (message : String) (statusCode : Option Nat)
      (originalErrors : List D1ErrorObj)
  | unknown (message : String)
deriving DecidableEq, Repr

/-- Successful return value of executeQuery. -/
structure ExecSuccess where
  results : List Row
  duration : Option Nat
  changes : Option Int
  count : Option Nat
deriving DecidableEq, Repr

/-- The per-message SQL-mistake signature test of executeQuery
(src/unnamed/part_000 lines 115-126): msg is error.message lowercased,
with a missing message read as the empty string. -/
def isSQLErrorMsg (message : Option String) : Bool :=
  let msg := toLowerJS (message.getD "")
  strContains msg "syntax error" ||
  strContains msg "no such table" ||
  strContains msg "no such column" ||
  strContains msg "near " ||
  strContains msg "sql error" ||
  strContains msg "parse error" ||
  strContains msg "duplicate column" ||
  (strContains msg "table" && strContains msg "already exists") ||
  strContains msg "constraint"

/-- Joined error text data.errors.map(e => e.message).join(comma-space);
JS Array.join renders undefined as the empty string. -/
def joinedErrorMessages (errors : List D1ErrorObj) : String :=
  String.intercalate ", " (errors.map fun e => e.message.getD "")

/-- The isSQLError test of executeQuery: data.errors.some of the
per-message signature test. -/
def hasSQLErrorSignature (errors : List D1ErrorObj) : Bool :=
  errors.any fun e => isSQLErrorMsg e.message

/-- CloudflareD1Service.executeQuery (src/unnamed/part_000 lines
75-142), with the fetch outcome supplied as data: classifies non-2xx
responses as CloudflareSystemError (401/403 with an authentication
message), lets a connection error escape unwrapped, and on a 2xx
envelope with success:false classifies by the SQL-mistake signatures. -/
def executeQuery (resp : HttpOutcome) : Except D1Error ExecSuccess :=
  match resp with
  | .httpError status statusText =>
      if status == 401 || status == 403 then
        .error (.system ("Authentication failed: " ++ statusText)
          (some status) [])
      else
        .error (.system ("HTTP error " ++ toString status ++ ": " ++ statusText)
          (some status) [])
  | .networkError msg => .error (.unknown msg)
  | .ok data =>
      if data.success then
        .ok { results := (data.result.bind (fun r => r.results)).getD []
              duration := data.result.bind fun r => r.duration
              changes := data.result.bind fun r => r.changes
              count := data.result.bind fun r => r.count }
      else
        let errorMessages := joinedErrorMessages data.errors
        if hasSQLErrorSignature data.errors then
          .error (.user errorMessages data.errors)
        else
          .error (.system errorMessages none data.errors)

/-- A stored query result (MemStorage.queryResults entry, shape
QueryResult of src/shared/schema.ts): random id, cache key pair,
results, execution time text, row count text, creation timestamp in
milliseconds. -/
structure QueryResultEntry where
  id : Nat
  queryHash : String
  databaseId : String
  results : List Row
  executionTime : Option String
  rowCount : Option String
  createdAt : Nat
deriving DecidableEq, Repr

/-- MemStorage restricted to the query-result cache: the Map values in
insertion order (Map.set with a fresh randomUUID key appends), plus a
counter standing in for randomUUID freshness. -/
structure Storage where
  queryResults : List QueryResultEntry
  nextId : Nat
deriving DecidableEq, Repr

/-- The storage a fresh MemStorage starts with. -/
def emptyStorage : Storage := { queryResults := [], nextId := 0 }

/-- MemStorage.createQueryResult (src/server/routes.ts lines
1331-1342): builds an entry with a fresh random id and createdAt =
now, and Map.set inserts it at the end of the iteration order. -/
def createQueryResult (st : Storage) (queryHash databaseId : String)
    (results : List Row) (executionTime rowCount : Option String)
    (now : Nat) : Storage :=
  { queryResults := st.queryResults ++
      [{ id := st.nextId, queryHash := queryHash, databaseId := databaseId
         results := results, executionTime := executionTime
         rowCount := rowCount, createdAt := now }]
    nextId := st.nextId + 1 }

/-- MemStorage.getQueryResult (src/server/routes.ts lines 1344-1348):
Array.from(values()).find returns the first entry in insertion order
whose queryHash and databaseId both match. -/
def getQueryResult (st : Storage) (queryHash databaseId : String) :
    Option QueryResultEntry :=
  st.queryResults.find? fun r =>
    r.queryHash == queryHash && r.databaseId == databaseId

/-- Cache-freshness test of the query route (src/server/routes.ts line
828): a stored entry is served only when now - createdAt is below five
minutes (Nat subtraction truncates exactly where the JS difference is
negative, and a negative difference also passes the JS test). -/
def freshCacheHit (st : Storage) (queryHash databaseId : String)
    (now : Nat) : Option QueryResultEntry :=
  match getQueryResult st queryHash databaseId with
  | none => none
  | some e => if now - e.createdAt < 300000 then some e else none

/-- An active API key as returned by storage.getActiveApiKey. -/
structure ApiKey where
  accountId : String
  cloudflareToken : String
deriving DecidableEq, Repr

/-- Guard for the development-mock branches: NODE_ENV is development
and the active token is the mock token. -/
def devMock (nodeEnv : String) (key : ApiKey) : Bool :=
  nodeEnv == "development" && key.cloudflareToken == "mock-token-for-testing"

/-- A JSON body sent by res.json together with its HTTP status; a field
holding none is absent from the serialized body (JSON.stringify drops
undefined values). -/
structure RouteResponse where
  status : Nat
  message : Option String := none
  results : Option (List Row) := none
  rows : Option (List Row) := none
  rowCount : Option Int := none
  pageSize : Option Int := none
  executionTime : Option String := none
  changes : Option Int := none
  cached : Option Bool := none
deriving DecidableEq, Repr

/-- The mock schema rows of getDatabaseSchema (src/unnamed/part_000
lines 146-165). -/
def mockSchema (databaseId : String) : List Row :=
  if databaseId == "db-test-1" then
    [[("name", "users"), ("type", "table"),
      ("sql", "CREATE TABLE users (id INTEGER PRIMARY KEY, name TEXT, email TEXT, created_at TEXT, status TEXT)")]]
  else if databaseId == "db-test-2" then
    [[("name", "analytics"), ("type", "table"),
      ("sql", "CREATE TABLE analytics (date TEXT, page_views INTEGER, unique_visitors INTEGER, bounce_rate REAL)")]]
  else []

/-- The fixed introspection query text of getDatabaseSchema
(src/unnamed/part_000 lines 167-175), byte for byte. -/
def schemaQueryText : String :=
  "\n      SELECT \n        name, \n        type, \n        sql \n      FROM sqlite_master \n      WHERE type IN (\x27table\x27, \x27view\x27) \n      ORDER BY name;\n    "

/-- The mock users rows of the query route (src/server/routes.ts lines
846-852), scalars by their textual content. -/
def mockUsers5 : List Row :=
  [[("id", "1"), ("name", "Alice Johnson"), ("email", "alice@example.com"),
    ("created_at", "2024-01-15"), ("status", "active")],
   [("id", "2"), ("name", "Bob Smith"), ("email", "bob@example.com"),
    ("created_at", "2024-01-20"), ("status", "active")],
   [("id", "3"), ("name", "Carol Davis"), ("email", "carol@example.com"),
    ("created_at", "2024-02-01"), ("status", "inactive")],
   [("id", "4"), ("name", "David Wilson"), ("email", "david@example.com"),
    ("created_at", "2024-02-15"), ("status", "active")],
   [("id", "5"), ("name", "Eva Brown"), ("email", "eva@example.com"),
    ("created_at", "2024-03-01"), ("status", "active")]]

/-- The mock analytics rows of the query route (src/server/routes.ts
lines 855-861). -/
def mockAnalytics5 : List Row :=
  [[("date", "2024-03-01"), ("page_views", "1250"), ("unique_visitors", "820"), ("bounce_rate", "0.35")],
   [("date", "2024-03-02"), ("page_views", "1380"), ("unique_visitors", "920"), ("bounce_rate", "0.32")],
   [("date", "2024-03-03"), ("page_views", "1150"), ("unique_visitors", "750"), ("bounce_rate", "0.38")],
   [("date", "2024-03-04"), ("page_views", "1420"), ("unique_visitors", "980"), ("bounce_rate", "0.30")],
   [("date", "2024-03-05"), ("page_views", "1320"), ("unique_visitors", "850"), ("bounce_rate", "0.34")]]

/-- Mock result generation of the query route (src/server/routes.ts
lines 841-863): results only for queries containing select, keyed by
the test database ids. -/
def mockQueryResults (databaseId query : String) : List Row :=
  if strContains (toLowerJS query) "select" then
    if databaseId == "db-test-1" then mockUsers5
    else if databaseId == "db-test-2" then mockAnalytics5
    else []
  else []

/-- Everything a run of the query route produces: the HTTP response,
the storage afterwards, the SQL texts sent to the remote service, and
the structured log events as (tag, logged errorMessage) pairs (the
errorMessage is empty for success logs). -/
structure QueryEndpointResult where
  resp : RouteResponse
  storage : Storage
  remoteCalls : List String
  logs : List (String × String)
deriving DecidableEq, Repr

/-- POST /api/databases/:id/query (src/server/routes.ts lines
810-956).  Inputs beyond the request: nodeEnv is process.env.NODE_ENV,
apiKey the result of storage.getActiveApiKey, remote the outcome the
network would deliver for the executeQuery fetch, now the instant the
request runs, elapsed the value of Date.now() - startTime when the
response is built, st the storage before the request. -/
def queryEndpoint (nodeEnv : String) (apiKey : Option ApiKey)
    (remote : HttpOutcome) (now elapsed : Nat) (st : Storage)
    (databaseId query : String) : QueryEndpointResult :=
  if query == "" then
    { resp := { status := 400, message := some "Query is required" }
      storage := st, remoteCalls := [], logs := [] }
  else
    match apiKey with
    | none =>
        { resp := { status := 400, message := some "No active API key configured" }
          storage := st, remoteCalls := [], logs := [] }
    | some key =>
        let queryHash := md5Hex query
        match freshCacheHit st queryHash databaseId now with
        | some cached =>
            { resp := { status := 200, results := some cached.results
                        executionTime := cached.executionTime
                        rowCount := some ((parseIntJS (jsStrOr cached.rowCount "0")).getD 0)
                        cached := some true }
              storage := st, remoteCalls := [], logs := [] }
        | none =>
            let executionTime := toString elapsed ++ "ms"
            if devMock nodeEnv key then
              let mockResults := mockQueryResults databaseId query
              let st2 := createQueryResult st queryHash databaseId mockResults
                (some executionTime) (some (toString mockResults.length)) now
              { resp := { status := 200, results := some mockResults
                          executionTime := some executionTime
                          rowCount := some (Int.ofNat mockResults.length)
                          changes := some 0, cached := some false }
                storage := st2, remoteCalls := [], logs := [] }
            else
              match executeQuery remote with
              | .ok result =>
                  let st2 := createQueryResult st queryHash databaseId result.results
                    (some executionTime) (some (toString result.results.length)) now
                  { resp := { status := 200, results := some result.results
                              executionTime := some executionTime
                              rowCount := some (Int.ofNat result.results.length)
                              changes := result.changes, cached := some false }
                    storage := st2, remoteCalls := [query]
                    logs := [("QUERY SUCCESS", "")] }
              | .error (.user m _) =>
                  { resp := { status := 400, message := some m
                              results := some [], rowCount := some 0
                              executionTime := some executionTime }
                    storage := st, remoteCalls := [query]
                    logs := [("QUERY USER_ERROR", m)] }
              | .error (.system m _ _) =>
                  { resp := { status := 500
                              message := some "Internal server error occurred while executing query"
                              results := some [], rowCount := some 0
                              executionTime := some executionTime }
                    storage := st, remoteCalls := [query]
                    logs := [("QUERY SYSTEM_ERROR", m)] }
              | .error (.unknown m) =>
                  { resp := { status := 500
                              message := some "Failed to execute query"
                              results := some [], rowCount := some 0
                              executionTime := some executionTime }
                    storage := st, remoteCalls := [query]
                    logs := [("QUERY UNKNOWN_ERROR", m)] }

/-- The mock users rows of the table-rows route (src/server/routes.ts
lines 699-707). -/
def mockUsers7 : List Row :=
  mockUsers5 ++
  [[("id", "6"), ("name", "Frank Miller"), ("email", "frank@example.com"),
    ("created_at", "2024-03-10"), ("status", "active")],
   [("id", "7"), ("name", "Grace Lee"), ("email", "grace@example.com"),
    ("created_at", "2024-03-15"), ("status", "inactive")]]

/-- The mock analytics rows of the table-rows route
(src/server/routes.ts lines 710-718). -/
def mockAnalytics7 : List Row :=
  mockAnalytics5 ++
  [[("date", "2024-03-06"), ("page_views", "1480"), ("unique_visitors", "1020"), ("bounce_rate", "0.29")],
   [("date", "2024-03-07"), ("page_views", "1350"), ("unique_visitors", "880"), ("bounce_rate", "0.33")]]

/-- Mock row selection of the table-rows route (src/server/routes.ts
lines 696-720): slice(offset, offset + limit) over the fixed data. -/
def mockTableRows (databaseId tableName : String)
    (limitNum offsetNum : Int) : List Row :=
  let allRows : List Row :=
    if databaseId == "db-test-1" && tableName == "users" then mockUsers7
    else if databaseId == "db-test-2" && tableName == "analytics" then mockAnalytics7
    else []
  (allRows.drop offsetNum.toNat).take limitNum.toNat

/-- The table-existence test of the table-rows route
(src/server/routes.ts lines 671-673): some schema item has type table
and the requested name. -/
def tableInSchema (schema : List Row) (tableName : String) : Bool :=
  schema.any fun item =>
    getField item "type" == some "table" &&
    getField item "name" == some tableName

/-- The SQL text the table-rows route builds (src/server/routes.ts line
743): identifier-quoted table name, interpolated limit and offset. -/
def browseQueryText (tableName : String) (limitNum offsetNum : Int) : String :=
  "SELECT * FROM \"" ++ tableName ++ "\" LIMIT " ++ toString limitNum ++
    " OFFSET " ++ toString offsetNum

/-- Everything a run of the table-rows route produces; this route never
touches the query-result cache, so no storage is carried. -/
structure TableRowsResult where
  resp : RouteResponse
  remoteCalls : List String
  logs : List (String × String)
deriving DecidableEq, Repr

/-- The catch block of the table-rows route (src/server/routes.ts lines
765-806): maps the three error classes to their responses, with
pageSize recomputed as parseInt(limit) || 50. -/
def tableRowsCatch (limitStr : String) (calls : List String)
    (e : D1Error) : TableRowsResult :=
  match e with
  | .user m _ =>
      { resp := { status := 400, message := some m, rows := some []
                  rowCount := some 0, pageSize := some (jsParseOr limitStr 50) }
        remoteCalls := calls, logs := [("TABLE_ROWS USER_ERROR", m)] }
  | .system m _ _ =>
      { resp := { status := 500
                  message := some "Internal server error occurred while fetching table data"
                  rows := some [], rowCount := some 0
                  pageSize := some (jsParseOr limitStr 50) }
        remoteCalls := calls, logs := [("TABLE_ROWS SYSTEM_ERROR", m)] }
  | .unknown m =>
      { resp := { status := 500, message := some "Failed to fetch table data"
                  rows := some [], rowCount := some 0
                  pageSize := some (jsParseOr limitStr 50) }
        remoteCalls := calls, logs := [("TABLE_ROWS UNKNOWN_ERROR", m)] }

/-- GET /api/databases/:id/tables/:table/rows (src/server/routes.ts
lines 629-807).  limitParam and offsetParam are the raw query-string
values (none models an absent parameter, defaulted to 50 and 0);
schemaRemote and dataRemote are the outcomes the network would deliver
for the schema introspection fetch and for the page SELECT fetch. -/
def tableRowsEndpoint (nodeEnv : String) (apiKey : Option ApiKey)
    (schemaRemote dataRemote : HttpOutcome) (elapsed : Nat)
    (databaseId tableName : String)
    (limitParam offsetParam : Option String) : TableRowsResult :=
  let limitStr := limitParam.getD "50"
  let offsetStr := offsetParam.getD "0"
  let badLimit : TableRowsResult :=
    { resp := { status := 400, message := some "Limit must be a number between 1 and 100"
                rows := some [], rowCount := some 0, pageSize := some 0 }
      remoteCalls := [], logs := [] }
  let badOffset : TableRowsResult :=
    { resp := { status := 400, message := some "Offset must be a non-negative number"
                rows := some [], rowCount := some 0, pageSize := some 0 }
      remoteCalls := [], logs := [] }
  match parseIntJS limitStr with
  | none => badLimit
  | some limitNum =>
    if limitNum < 1 || limitNum > 100 then badLimit
    else
      match parseIntJS offsetStr with
      | none => badOffset
      | some offsetNum =>
        if offsetNum < 0 then badOffset
        else
          match apiKey with
          | none =>
              { resp := { status := 400, message := some "No active API key configured"
                          rows := some [], rowCount := some 0, pageSize := some 0 }
                remoteCalls := [], logs := [] }
          | some key =>
            let isMock := devMock nodeEnv key
            let schemaCalls : List String := if isMock then [] else [schemaQueryText]
            let schemaExc : Except D1Error (List Row) :=
              if isMock then .ok (mockSchema databaseId)
              else (executeQuery schemaRemote).map fun r => r.results
            match schemaExc with
            | .error e => tableRowsCatch limitStr schemaCalls e
            | .ok schema =>
              let tableExists := tableInSchema schema tableName
              if !tableExists then
                { resp := { status := 400
                            message := some ("Table \x27" ++ tableName ++ "\x27 does not exist")
                            rows := some [], rowCount := some 0
                            pageSize := some limitNum }
                  remoteCalls := schemaCalls
                  logs := [("TABLE_ROWS USER_ERROR",
                            "Table \x27" ++ tableName ++ "\x27 does not exist")] }
              else if isMock then
                let mockRows := mockTableRows databaseId tableName limitNum offsetNum
                { resp := { status := 200, rows := some mockRows
                            rowCount := some (Int.ofNat mockRows.length)
                            pageSize := some limitNum }
                  remoteCalls := schemaCalls, logs := [("TABLE_ROWS SUCCESS", "")] }
              else
                let query := browseQueryText tableName limitNum offsetNum
                match executeQuery dataRemote with
                | .ok result =>
                    { resp := { status := 200, rows := some result.results
                                rowCount := some (Int.ofNat result.results.length)
                                pageSize := some limitNum }
                      remoteCalls := schemaCalls ++ [query]
                      logs := [("TABLE_ROWS SUCCESS", "")] }
                | .error e => tableRowsCatch limitStr (schemaCalls ++ [query]) e

/-- Discriminator: the execution ended in a CloudflareSystemError. -/
def classifiedAsSystem : Except D1Error ExecSuccess → Bool
  | .error (.system _ _ _) => true
  | _ => false

/-- A concrete active API key used by the concrete instantiations. -/
def sampleKey : ApiKey := { accountId := "acc", cloudflareToken := "tok" }

/-- A concrete 2xx envelope with success:false and a message matching
the no-such-table signature. -/
def noSuchTableEnvelope : CloudflareD1Response :=
  { success := false
    errors := [{ message := some "no such table: users" }]
    result := none }

/-- A concrete 2xx envelope with success:false and a message matching
no signature. -/
def overloadedEnvelope : CloudflareD1Response :=
  { success := false
    errors := [{ message := some "Database is overloaded, try again" }]
    result := none }

/-- A concrete 2xx envelope with success:true and one result row. -/
def okEnvelope : CloudflareD1Response :=
  { success := true
    errors := []
    result := some { results := some [[("a", "1")]]
                     duration := some 12
                     changes := some 3
                     count := none } }

/-- A concrete 2xx envelope carrying one schema row describing the
users table. -/
def schemaEnvelope : CloudflareD1Response :=
  { success := true
    errors := []
    result := some { results := some [[("name", "users"), ("type", "table"), ("sql", "CREATE TABLE users (id INTEGER)")]]
                     duration := none
                     changes := none
                     count := none } }

/-- The CloudflareSystemError message executeQuery attaches to a
non-2xx response: an authentication message for 401/403, a generic
HTTP-error message otherwise. -/
def transportErrorMessage (status : Nat) (statusText : String) : String :=
  if status == 401 || status == 403 then
    "Authentication failed: " ++ statusText
  else
    "HTTP error " ++ toString status ++ ": " ++ statusText

/-- The limit validation of the table-rows route: isNaN(limitNum) ||
limitNum < 1 || limitNum > 100. -/
def limitInvalid (s : String) : Bool :=
  match parseIntJS s with
  | none => true
  | some v => v < 1 || v > 100

/-- The offset validation of the table-rows route: isNaN(offsetNum) ||
offsetNum < 0. -/
def offsetInvalid (s : String) : Bool :=
  match parseIntJS s with
  | none => true
  | some v => v < 0

/-- An entry found by getQueryResult carries exactly the key pair it
was looked up under. -/
theorem getQueryResult_key (st : Storage) (h db : String)
    (e : QueryResultEntry) (hget : getQueryResult st h db = some e) :
    e.queryHash = h ∧ e.databaseId = db := by
  unfold getQueryResult at hget
  have hp := List.find?_some hget
  simp only [Bool.and_eq_true, beq_iff_eq] at hp
  exact hp

/-- Looking up a key right after a put for that key, when no entry for
the key existed before, finds the entry just written. -/
theorem getQueryResult_create_of_none (st : Storage) (h db : String)
    (rows : List Row) (et rc : Option String) (now : Nat)
    (hget : getQueryResult st h db = none) :
    getQueryResult (createQueryResult st h db rows et rc now) h db =
      some { id := st.nextId, queryHash := h, databaseId := db
             results := rows, executionTime := et, rowCount := rc
             createdAt := now } := by
  unfold getQueryResult createQueryResult at *
  rw [List.find?_append, hget]
  simp

/-- An existing entry for a key shadows any later put for the same key:
lookups keep returning the old entry (first match in insertion order). -/
theorem getQueryResult_create_of_some (st : Storage) (h db : String)
    (e : QueryResultEntry) (rows : List Row) (et rc : Option String)
    (now : Nat) (hget : getQueryResult st h db = some e) :
    getQueryResult (createQueryResult st h db rows et rc now) h db = some e := by
  unfold getQueryResult createQueryResult at *
  rw [List.find?_append, hget]
  rfl

/-- Freshness of the entry just written, seen from a later instant
inside the window. -/
theorem freshCacheHit_create_of_none (st : Storage) (h db : String)
    (rows : List Row) (et rc : Option String) (now1 now2 : Nat)
    (hget : getQueryResult st h db = none)
    (hwin : now2 - now1 < 300000) :
    freshCacheHit (createQueryResult st h db rows et rc now1) h db now2 =
      some { id := st.nextId, queryHash := h, databaseId := db
             results := rows, executionTime := et, rowCount := rc
             createdAt := now1 } := by
  unfold freshCacheHit
  rw [getQueryResult_create_of_none st h db rows et rc now1 hget]
  simp [hwin]

/-- Evaluation of the query route on a cache miss followed by a
successful remote execution. -/
theorem queryEndpoint_miss_success (nodeEnv : String) (key : ApiKey)
    (remote : HttpOutcome) (now elapsed : Nat) (st : Storage)
    (databaseId query : String) (execRes : ExecSuccess)
    (hq : (query == "") = false)
    (hmock : devMock nodeEnv key = false)
    (hc : freshCacheHit st (md5Hex query) databaseId now = none)
    (hrem : executeQuery remote = .ok execRes) :
    queryEndpoint nodeEnv (some key) remote now elapsed st databaseId query =
      { resp := { status := 200, results := some execRes.results
                  executionTime := some (toString elapsed ++ "ms")
                  rowCount := some (Int.ofNat execRes.results.length)
                  changes := execRes.changes, cached := some false }
        storage := createQueryResult st (md5Hex query) databaseId
          execRes.results (some (toString elapsed ++ "ms"))
          (some (toString execRes.results.length)) now
        remoteCalls := [query]
        logs := [("QUERY SUCCESS", "")] } := by
  unfold queryEndpoint
  simp [hq, hc, hmock, hrem]

/-- Evaluation of the query route on a fresh cache hit. -/
theorem queryEndpoint_hit (nodeEnv : String) (key : ApiKey)
    (remote : HttpOutcome) (now elapsed : Nat) (st : Storage)
    (databaseId query : String) (e : QueryResultEntry)
    (hq : (query == "") = false)
    (hc : freshCacheHit st (md5Hex query) databaseId now = some e) :
    queryEndpoint nodeEnv (some key) remote now elapsed st databaseId query =
      { resp := { status := 200, results := some e.results
                  executionTime := e.executionTime
                  rowCount := some ((parseIntJS (jsStrOr e.rowCount "0")).getD 0)
                  cached := some true }
        storage := st, remoteCalls := [], logs := [] } := by
  unfold queryEndpoint
  simp [hq, hc]

/-- C1: for every execution reaching the remote service that comes back
as an HTTP 2xx envelope with success:false, if any attached error
message (lowercased) matches any SQL-mistake signature then the
classifier produces a CloudflareUserError, the route answers 400, and
the response message is the joined remote error text verbatim; if no
attached message matches, the classifier produces a
CloudflareSystemError. -/
theorem C1_application_failure_classification
    (nodeEnv : String) (key : ApiKey) (remoteData : CloudflareD1Response)
    (now elapsed : Nat) (st : Storage) (databaseId query : String)
    (hq : (query == "") = false)
    (hmock : devMock nodeEnv key = false)
    (hc : freshCacheHit st (md5Hex query) databaseId now = none)
    (hfail : remoteData.success = false) :
    (hasSQLErrorSignature remoteData.errors = true →
      executeQuery (.ok remoteData) =
        .error (.user (joinedErrorMessages remoteData.errors) remoteData.errors) ∧
      (queryEndpoint nodeEnv (some key) (.ok remoteData) now elapsed st
        databaseId query).resp.status = 400 ∧
      (queryEndpoint nodeEnv (some key) (.ok remoteData) now elapsed st
        databaseId query).resp.message =
        some (joinedErrorMessages remoteData.errors)) ∧
    (hasSQLErrorSignature remoteData.errors = false →
      executeQuery (.ok remoteData) =
        .error (.system (joinedErrorMessages remoteData.errors) none
          remoteData.errors)) := by
  constructor
  · intro hsig
    have hexec : executeQuery (.ok remoteData) =
        .error (.user (joinedErrorMessages remoteData.errors) remoteData.errors) := by
      simp [executeQuery, hfail, hsig]
    refine ⟨hexec, ?_, ?_⟩ <;>
      · unfold queryEndpoint
        simp [hq, hmock, hc, hexec]
  · intro hsig
    simp [executeQuery, hfail, hsig]

/-- Witness for C1 at a concrete failing envelope with a matched
signature, and a concrete one with no matched signature. -/
theorem C1_application_failure_classification_witness :
    (executeQuery (.ok noSuchTableEnvelope) =
      .error (.user "no such table: users" noSuchTableEnvelope.errors) ∧
     (queryEndpoint "production" (some sampleKey) (.ok noSuchTableEnvelope)
        0 7 emptyStorage "db-1" "SELECT * FROM users").resp.status = 400 ∧
     (queryEndpoint "production" (some sampleKey) (.ok noSuchTableEnvelope)
        0 7 emptyStorage "db-1" "SELECT * FROM users").resp.message =
       some "no such table: users") ∧
    executeQuery (.ok overloadedEnvelope) =
      .error (.system "Database is overloaded, try again" none
        overloadedEnvelope.errors) := by
  constructor
  · exact (C1_application_failure_classification "production" sampleKey
      noSuchTableEnvelope 0 7 emptyStorage "db-1" "SELECT * FROM users"
      (by decide) (by decide) rfl rfl).1 (by decide)
  · exact (C1_application_failure_classification "production" sampleKey
      overloadedEnvelope 0 7 emptyStorage "db-1" "SELECT * FROM users"
      (by decide) (by decide) rfl rfl).2 (by decide)

/-- C2 (amended): starting with NO cache entry for the pair, two
consecutive query-route calls with the same databaseId and the same raw
sqlText within the 300 second window make exactly one remote call: the
first sends the text once, the second sends nothing, both return the
same rows, the second is marked cached; and any entry getQueryResult
returns carries exactly the databaseId (and hash) it was looked up
under, so an entry stored for one database is never returned for
another.  The clean-prestate hypothesis is necessary: when a stale
entry already exists for the pair, it shadows every fresh put (see the
C2 counterexample below and C5), and both calls go remote. -/
theorem C2_cache_hit_single_remote_call
    (nodeEnv : String) (key : ApiKey) (remote remote2 : HttpOutcome)
    (now1 now2 elapsed1 elapsed2 : Nat) (st0 : Storage)
    (databaseId query : String) (execRes : ExecSuccess)
    (hq : (query == "") = false)
    (hmock : devMock nodeEnv key = false)
    (hget : getQueryResult st0 (md5Hex query) databaseId = none)
    (hrem : executeQuery remote = .ok execRes)
    (hwin : now2 - now1 < 300000) :
    (queryEndpoint nodeEnv (some key) remote now1 elapsed1 st0
      databaseId query).remoteCalls = [query] ∧
    (queryEndpoint nodeEnv (some key) remote now1 elapsed1 st0
      databaseId query).resp.results = some execRes.results ∧
    (queryEndpoint nodeEnv (some key) remote2 now2 elapsed2
      (queryEndpoint nodeEnv (some key) remote now1 elapsed1 st0
        databaseId query).storage databaseId query).remoteCalls = [] ∧
    (queryEndpoint nodeEnv (some key) remote2 now2 elapsed2
      (queryEndpoint nodeEnv (some key) remote now1 elapsed1 st0
        databaseId query).storage databaseId query).resp.results =
      some execRes.results ∧
    (queryEndpoint nodeEnv (some key) remote2 now2 elapsed2
      (queryEndpoint nodeEnv (some key) remote now1 elapsed1 st0
        databaseId query).storage databaseId query).resp.cached =
      some true ∧
    (∀ (st : Storage) (h db : String) (e : QueryResultEntry),
      getQueryResult st h db = some e → e.queryHash = h ∧ e.databaseId = db) := by
  have hc1 : freshCacheHit st0 (md5Hex query) databaseId now1 = none := by
    unfold freshCacheHit
    rw [hget]
  have e1 := queryEndpoint_miss_success nodeEnv key remote now1 elapsed1 st0
    databaseId query execRes hq hmock hc1 hrem
  have hc2 := freshCacheHit_create_of_none st0 (md5Hex query) databaseId
    execRes.results (some (toString elapsed1 ++ "ms"))
    (some (toString execRes.results.length)) now1 now2 hget hwin
  have e2 := queryEndpoint_hit nodeEnv key remote2 now2 elapsed2
    (queryEndpoint nodeEnv (some key) remote now1 elapsed1 st0
      databaseId query).storage databaseId query _ hq (by rw [e1]; exact hc2)
  refine ⟨by rw [e1], by rw [e1], by rw [e2], by rw [e2], by rw [e2],
    fun st h db e hg => getQueryResult_key st h db e hg⟩

/-- Witness for C2 at a concrete pair of calls against an empty cache. -/
theorem C2_cache_hit_single_remote_call_witness :
    (queryEndpoint "production" (some sampleKey) (.ok okEnvelope) 1000 7
      emptyStorage "db-1" "SELECT 1").remoteCalls = ["SELECT 1"] ∧
    (queryEndpoint "production" (some sampleKey) (.ok okEnvelope) 1000 7
      emptyStorage "db-1" "SELECT 1").resp.results = some [[("a", "1")]] ∧
    (queryEndpoint "production" (some sampleKey) (.networkError "down") 2000 9
      (queryEndpoint "production" (some sampleKey) (.ok okEnvelope) 1000 7
        emptyStorage "db-1" "SELECT 1").storage "db-1" "SELECT 1").remoteCalls = [] ∧
    (queryEndpoint "production" (some sampleKey) (.networkError "down") 2000 9
      (queryEndpoint "production" (some sampleKey) (.ok okEnvelope) 1000 7
        emptyStorage "db-1" "SELECT 1").storage "db-1" "SELECT 1").resp.results =
      some [[("a", "1")]] ∧
    (queryEndpoint "production" (some sampleKey) (.networkError "down") 2000 9
      (queryEndpoint "production" (some sampleKey) (.ok okEnvelope) 1000 7
        emptyStorage "db-1" "SELECT 1").storage "db-1" "SELECT 1").resp.cached =
      some true := by
  have h := C2_cache_hit_single_remote_call "production" sampleKey
    (.ok okEnvelope) (.networkError "down") 1000 2000 7 9 emptyStorage
    "db-1" "SELECT 1"
    { results := [[("a", "1")]], duration := some 12
      changes := some 3, count := none }
    (by decide) (by decide) rfl rfl (by decide)
  exact ⟨h.1, h.2.1, h.2.2.1, h.2.2.2.1, h.2.2.2.2.1⟩

/-- Counterexample to C2 as stated: with a stale entry already stored
for the pair (createdAt 0, calls at 300000 and 300001, so the two
calls are well within the 300 second window of each other), the stale
entry shadows the fresh put — createQueryResult appends under a fresh
id and getQueryResult returns the oldest match — so BOTH consecutive
identical calls miss the cache and send the query to the remote
service (two remote calls, not one), and the second response is
cached:false, never fromCache=true. -/
theorem C2_counterexample :
    (300001 - 300000 : Nat) < 300000 ∧
    (queryEndpoint "production" (some sampleKey) (.ok okEnvelope) 300000 7
      (createQueryResult emptyStorage (md5Hex "SELECT 1") "db-1"
        [[("a", "0")]] (some "1ms") (some "1") 0)
      "db-1" "SELECT 1").remoteCalls = ["SELECT 1"] ∧
    (queryEndpoint "production" (some sampleKey) (.ok okEnvelope) 300001 9
      (queryEndpoint "production" (some sampleKey) (.ok okEnvelope) 300000 7
        (createQueryResult emptyStorage (md5Hex "SELECT 1") "db-1"
          [[("a", "0")]] (some "1ms") (some "1") 0)
        "db-1" "SELECT 1").storage "db-1" "SELECT 1").remoteCalls =
      ["SELECT 1"] ∧
    (queryEndpoint "production" (some sampleKey) (.ok okEnvelope) 300001 9
      (queryEndpoint "production" (some sampleKey) (.ok okEnvelope) 300000 7
        (createQueryResult emptyStorage (md5Hex "SELECT 1") "db-1"
          [[("a", "0")]] (some "1ms") (some "1") 0)
        "db-1" "SELECT 1").storage "db-1" "SELECT 1").resp.cached =
      some false := by
  refine ⟨by decide, by decide, by decide, by decide⟩

/-- Evaluation of executeQuery on a non-2xx response. -/
theorem executeQuery_httpError (status : Nat) (statusText : String) :
    executeQuery (.httpError status statusText) =
      .error (.system (transportErrorMessage status statusText)
        (some status) []) := by
  unfold executeQuery transportErrorMessage
  cases hb : (status == 401 || status == 403) <;> simp [hb]

/-- Counterexample to C3 as stated: a connection error is not
classified as a CloudflareSystemError — it escapes as a plain unknown
error and is handled by the unknown-error branch of the route (still
500, but a different classification, log tag and generic message). -/
theorem C3_counterexample :
    classifiedAsSystem (executeQuery (.networkError "fetch failed")) = false ∧
    executeQuery (.networkError "fetch failed") =
      .error (.unknown "fetch failed") ∧
    (queryEndpoint "production" (some sampleKey) (.networkError "fetch failed")
      0 5 emptyStorage "db-1" "SELECT 1").resp.status = 500 ∧
    (queryEndpoint "production" (some sampleKey) (.networkError "fetch failed")
      0 5 emptyStorage "db-1" "SELECT 1").resp.message =
      some "Failed to execute query" ∧
    (queryEndpoint "production" (some sampleKey) (.networkError "fetch failed")
      0 5 emptyStorage "db-1" "SELECT 1").logs =
      [("QUERY UNKNOWN_ERROR", "fetch failed")] := by
  refine ⟨rfl, rfl, ?_, ?_, ?_⟩ <;> rfl

/-- C3 (amended): every non-2xx HTTP response (401/403, 5xx, unexpected
4xx) is classified as a CloudflareSystemError and answered with 500,
the generic internal-error message and the detail only in the log; a
connection error instead escapes unclassified and is handled by the
unknown-error branch, also a 500 with a generic message and the detail
only in the log. -/
theorem C3_transport_failure_system_error
    (nodeEnv : String) (key : ApiKey) (status : Nat)
    (statusText emsg : String) (now elapsed : Nat) (st : Storage)
    (databaseId query : String)
    (hq : (query == "") = false)
    (hmock : devMock nodeEnv key = false)
    (hc : freshCacheHit st (md5Hex query) databaseId now = none) :
    (classifiedAsSystem (executeQuery (.httpError status statusText)) = true ∧
     (queryEndpoint nodeEnv (some key) (.httpError status statusText)
       now elapsed st databaseId query).resp.status = 500 ∧
     (queryEndpoint nodeEnv (some key) (.httpError status statusText)
       now elapsed st databaseId query).resp.message =
       some "Internal server error occurred while executing query" ∧
     (queryEndpoint nodeEnv (some key) (.httpError status statusText)
       now elapsed st databaseId query).logs =
       [("QUERY SYSTEM_ERROR", transportErrorMessage status statusText)]) ∧
    ((queryEndpoint nodeEnv (some key) (.networkError emsg)
       now elapsed st databaseId query).resp.status = 500 ∧
     (queryEndpoint nodeEnv (some key) (.networkError emsg)
       now elapsed st databaseId query).resp.message =
       some "Failed to execute query" ∧
     (queryEndpoint nodeEnv (some key) (.networkError emsg)
       now elapsed st databaseId query).logs =
       [("QUERY UNKNOWN_ERROR", emsg)]) := by
  have hexec := executeQuery_httpError status statusText
  have hnet : executeQuery (.networkError emsg) = .error (.unknown emsg) := rfl
  constructor
  · refine ⟨by rw [hexec]; rfl, ?_, ?_, ?_⟩ <;>
      · unfold queryEndpoint
        simp [hq, hmock, hc, hexec]
  · refine ⟨?_, ?_, ?_⟩ <;>
      · unfold queryEndpoint
        simp [hq, hmock, hc, hnet]

/-- Witness for the amended C3 at a concrete 403 response and a
concrete connection error. -/
theorem C3_transport_failure_system_error_witness :
    (classifiedAsSystem (executeQuery (.httpError 403 "Forbidden")) = true ∧
     (queryEndpoint "production" (some sampleKey) (.httpError 403 "Forbidden")
       0 5 emptyStorage "db-1" "SELECT 1").resp.status = 500 ∧
     (queryEndpoint "production" (some sampleKey) (.httpError 403 "Forbidden")
       0 5 emptyStorage "db-1" "SELECT 1").resp.message =
       some "Internal server error occurred while executing query" ∧
     (queryEndpoint "production" (some sampleKey) (.httpError 403 "Forbidden")
       0 5 emptyStorage "db-1" "SELECT 1").logs =
       [("QUERY SYSTEM_ERROR", transportErrorMessage 403 "Forbidden")]) ∧
    ((queryEndpoint "production" (some sampleKey) (.networkError "socket hang up")
       0 5 emptyStorage "db-1" "SELECT 1").resp.status = 500 ∧
     (queryEndpoint "production" (some sampleKey) (.networkError "socket hang up")
       0 5 emptyStorage "db-1" "SELECT 1").resp.message =
       some "Failed to execute query" ∧
     (queryEndpoint "production" (some sampleKey) (.networkError "socket hang up")
       0 5 emptyStorage "db-1" "SELECT 1").logs =
       [("QUERY UNKNOWN_ERROR", "socket hang up")]) :=
  C3_transport_failure_system_error "production" sampleKey 403 "Forbidden"
    "socket hang up" 0 5 emptyStorage "db-1" "SELECT 1"
    (by decide) (by decide) rfl

/-- C4: when the remote execution fails — with any classification —
the query route leaves the result cache exactly as it was, so only
successful executions are ever cached. -/
theorem C4_failure_never_cached
    (nodeEnv : String) (key : ApiKey) (remote : HttpOutcome)
    (now elapsed : Nat) (st : Storage) (databaseId query : String)
    (e : D1Error)
    (hq : (query == "") = false)
    (hmock : devMock nodeEnv key = false)
    (hc : freshCacheHit st (md5Hex query) databaseId now = none)
    (he : executeQuery remote = .error e) :
    (queryEndpoint nodeEnv (some key) remote now elapsed st
      databaseId query).storage = st := by
  cases e <;>
    · unfold queryEndpoint
      simp [hq, hmock, hc, he]

/-- Witness for C4 at a concrete connection failure against an empty
cache. -/
theorem C4_failure_never_cached_witness :
    (queryEndpoint "production" (some sampleKey) (.networkError "down")
      0 5 emptyStorage "db-1" "SELECT 1").storage = emptyStorage :=
  C4_failure_never_cached "production" sampleKey (.networkError "down")
    0 5 emptyStorage "db-1" "SELECT 1" (.unknown "down")
    (by decide) (by decide) rfl rfl

/-- Counterexample to C5 as stated: after two puts for the same
(fingerprint, databaseId) pair, get returns the rows of the FIRST put,
not the second — a later put inserts a second entry instead of
overwriting, and lookups keep answering from the oldest entry. -/
theorem C5_counterexample :
    (getQueryResult
      (createQueryResult
        (createQueryResult emptyStorage "h" "db" [[("a", "1")]]
          (some "1ms") (some "1") 0)
        "h" "db" [[("a", "2")]] (some "2ms") (some "1") 10)
      "h" "db").map (fun e => e.results) = some [[("a", "1")]] ∧
    ([[("a", "1")]] : List Row) ≠ [[("a", "2")]] ∧
    (createQueryResult
      (createQueryResult emptyStorage "h" "db" [[("a", "1")]]
        (some "1ms") (some "1") 0)
      "h" "db" [[("a", "2")]] (some "2ms") (some "1") 10).queryResults.length = 2 := by
  refine ⟨rfl, by decide, rfl⟩

/-- C5 (amended): a later put for an existing (fingerprint, databaseId)
pair does not supersede the earlier entry: it appends a new entry at
the end of the store, and a subsequent get still returns the original
entry — first write wins for as long as the original entry exists. -/
theorem C5_first_write_wins
    (st : Storage) (h db : String) (e0 : QueryResultEntry)
    (rows : List Row) (et rc : Option String) (now : Nat)
    (hget : getQueryResult st h db = some e0) :
    getQueryResult (createQueryResult st h db rows et rc now) h db = some e0 ∧
    (createQueryResult st h db rows et rc now).queryResults =
      st.queryResults ++
        [{ id := st.nextId, queryHash := h, databaseId := db
           results := rows, executionTime := et, rowCount := rc
           createdAt := now }] :=
  ⟨getQueryResult_create_of_some st h db e0 rows et rc now hget, rfl⟩

/-- Witness for the amended C5 at a concrete double put. -/
theorem C5_first_write_wins_witness :
    getQueryResult
      (createQueryResult
        (createQueryResult emptyStorage "h" "db" [[("a", "1")]]
          (some "1ms") (some "1") 0)
        "h" "db" [[("a", "2")]] (some "2ms") (some "1") 10)
      "h" "db" =
      some { id := 0, queryHash := "h", databaseId := "db"
             results := [[("a", "1")]], executionTime := some "1ms"
             rowCount := some "1", createdAt := 0 } :=
  (C5_first_write_wins
    (createQueryResult emptyStorage "h" "db" [[("a", "1")]]
      (some "1ms") (some "1") 0)
    "h" "db"
    { id := 0, queryHash := "h", databaseId := "db"
      results := [[("a", "1")]], executionTime := some "1ms"
      rowCount := some "1", createdAt := 0 }
    [[("a", "2")]] (some "2ms") (some "1") 10 (by decide)).1

/-- C6: a table-browse request whose limit parses outside [1,100] or
fails to parse, or whose offset parses negative or fails to parse, is
answered 400 with an empty well-formed body and no remote call at
all. -/
theorem C6_pagination_validation_before_remote
    (nodeEnv : String) (apiKey : Option ApiKey)
    (schemaRemote dataRemote : HttpOutcome) (elapsed : Nat)
    (databaseId tableName : String) (limitParam offsetParam : Option String)
    (hbad : limitInvalid (limitParam.getD "50") = true ∨
      offsetInvalid (offsetParam.getD "0") = true) :
    (tableRowsEndpoint nodeEnv apiKey schemaRemote dataRemote elapsed
      databaseId tableName limitParam offsetParam).resp.status = 400 ∧
    (tableRowsEndpoint nodeEnv apiKey schemaRemote dataRemote elapsed
      databaseId tableName limitParam offsetParam).remoteCalls = [] ∧
    (tableRowsEndpoint nodeEnv apiKey schemaRemote dataRemote elapsed
      databaseId tableName limitParam offsetParam).resp.rows = some [] ∧
    (tableRowsEndpoint nodeEnv apiKey schemaRemote dataRemote elapsed
      databaseId tableName limitParam offsetParam).resp.rowCount = some 0 := by
  unfold tableRowsEndpoint
  rcases hbad with hb | hb
  · unfold limitInvalid at hb
    cases hp : parseIntJS (limitParam.getD "50") with
    | none => simp [hp]
    | some v =>
        rw [hp] at hb
        simp only [decide_eq_true_eq] at hb
        simp [hp, hb]
  · unfold offsetInvalid at hb
    cases hp : parseIntJS (limitParam.getD "50") with
    | none => simp [hp]
    | some v =>
        cases hv : (decide (v < 1) || decide (v > 100)) with
        | true => simp [hp, hv]
        | false =>
            cases ho : parseIntJS (offsetParam.getD "0") with
            | none => simp [hp, hv, ho]
            | some w =>
                rw [ho] at hb
                simp only [decide_eq_true_eq] at hb
                simp [hp, hv, ho, hb]

/-- Witness for C6 at limit zero. -/
theorem C6_pagination_validation_before_remote_witness :
    limitInvalid ((some "0").getD "50") = true ∧
    (tableRowsEndpoint "production" (some sampleKey) (.ok schemaEnvelope)
      (.ok okEnvelope) 5 "db-1" "users" (some "0") none).resp.status = 400 ∧
    (tableRowsEndpoint "production" (some sampleKey) (.ok schemaEnvelope)
      (.ok okEnvelope) 5 "db-1" "users" (some "0") none).remoteCalls = [] ∧
    (tableRowsEndpoint "production" (some sampleKey) (.ok schemaEnvelope)
      (.ok okEnvelope) 5 "db-1" "users" (some "0") none).resp.rows = some [] ∧
    (tableRowsEndpoint "production" (some sampleKey) (.ok schemaEnvelope)
      (.ok okEnvelope) 5 "db-1" "users" (some "0") none).resp.rowCount = some 0 := by
  have h := C6_pagination_validation_before_remote "production"
    (some sampleKey) (.ok schemaEnvelope) (.ok okEnvelope) 5 "db-1" "users"
    (some "0") none (Or.inl (by decide))
  exact ⟨by decide, h.1, h.2.1, h.2.2.1, h.2.2.2⟩

/-- C7: when the fetched live schema has no item of type table with the
requested name, the table-rows route answers 400 TableNotFound with an
empty well-formed body, and the only SQL text ever sent to the remote
service is the schema introspection query — the page SELECT is never
issued. -/
theorem C7_table_not_found_no_select
    (nodeEnv : String) (key : ApiKey)
    (schemaRemote dataRemote : HttpOutcome) (elapsed : Nat)
    (databaseId tableName : String) (limitParam offsetParam : Option String)
    (limitNum offsetNum : Int) (sres : ExecSuccess)
    (hl : parseIntJS (limitParam.getD "50") = some limitNum)
    (hl2 : (decide (limitNum < 1) || decide (limitNum > 100)) = false)
    (ho : parseIntJS (offsetParam.getD "0") = some offsetNum)
    (ho2 : ¬ offsetNum < 0)
    (hmock : devMock nodeEnv key = false)
    (hs : executeQuery schemaRemote = .ok sres)
    (hnot : tableInSchema sres.results tableName = false) :
    (tableRowsEndpoint nodeEnv (some key) schemaRemote dataRemote elapsed
      databaseId tableName limitParam offsetParam).resp.status = 400 ∧
    (tableRowsEndpoint nodeEnv (some key) schemaRemote dataRemote elapsed
      databaseId tableName limitParam offsetParam).resp.message =
      some ("Table \x27" ++ tableName ++ "\x27 does not exist") ∧
    (tableRowsEndpoint nodeEnv (some key) schemaRemote dataRemote elapsed
      databaseId tableName limitParam offsetParam).resp.rows = some [] ∧
    (tableRowsEndpoint nodeEnv (some key) schemaRemote dataRemote elapsed
      databaseId tableName limitParam offsetParam).resp.rowCount = some 0 ∧
    (tableRowsEndpoint nodeEnv (some key) schemaRemote dataRemote elapsed
      databaseId tableName limitParam offsetParam).remoteCalls =
      [schemaQueryText] := by
  unfold tableRowsEndpoint
  simp [hl, hl2, ho, ho2, hmock, hs, hnot, Except.map]

/-- Witness for C7 at a concrete schema without the requested table. -/
theorem C7_table_not_found_no_select_witness :
    (tableRowsEndpoint "production" (some sampleKey) (.ok schemaEnvelope)
      (.ok okEnvelope) 5 "db-1" "orders" none none).resp.status = 400 ∧
    (tableRowsEndpoint "production" (some sampleKey) (.ok schemaEnvelope)
      (.ok okEnvelope) 5 "db-1" "orders" none none).resp.message =
      some "Table \x27orders\x27 does not exist" ∧
    (tableRowsEndpoint "production" (some sampleKey) (.ok schemaEnvelope)
      (.ok okEnvelope) 5 "db-1" "orders" none none).resp.rows = some [] ∧
    (tableRowsEndpoint "production" (some sampleKey) (.ok schemaEnvelope)
      (.ok okEnvelope) 5 "db-1" "orders" none none).resp.rowCount = some 0 ∧
    (tableRowsEndpoint "production" (some sampleKey) (.ok schemaEnvelope)
      (.ok okEnvelope) 5 "db-1" "orders" none none).remoteCalls =
      [schemaQueryText] :=
  C7_table_not_found_no_select "production" sampleKey (.ok schemaEnvelope)
    (.ok okEnvelope) 5 "db-1" "orders" none none 50 0
    { results := [[("name", "users"), ("type", "table"), ("sql", "CREATE TABLE users (id INTEGER)")]]
      duration := none, changes := none, count := none }
    (by decide) (by decide) (by decide) (by decide) (by decide) rfl (by decide)

/-- C8: when validation and the schema membership check both pass (and
only then), the SQL text sent for the page is exactly
SELECT * FROM "tableName" LIMIT limit OFFSET offset, with the table
name identifier-quoted; when the membership check fails, only the
schema introspection text is ever sent. -/
theorem C8_browse_query_exact_text
    (nodeEnv : String) (key : ApiKey)
    (schemaRemote dataRemote : HttpOutcome) (elapsed : Nat)
    (databaseId tableName : String) (limitParam offsetParam : Option String)
    (limitNum offsetNum : Int) (sres : ExecSuccess)
    (hl : parseIntJS (limitParam.getD "50") = some limitNum)
    (hl2 : (decide (limitNum < 1) || decide (limitNum > 100)) = false)
    (ho : parseIntJS (offsetParam.getD "0") = some offsetNum)
    (ho2 : ¬ offsetNum < 0)
    (hmock : devMock nodeEnv key = false)
    (hs : executeQuery schemaRemote = .ok sres) :
    (tableInSchema sres.results tableName = true →
      (tableRowsEndpoint nodeEnv (some key) schemaRemote dataRemote elapsed
        databaseId tableName limitParam offsetParam).remoteCalls =
        [schemaQueryText,
         "SELECT * FROM \"" ++ tableName ++ "\" LIMIT " ++ toString limitNum ++
           " OFFSET " ++ toString offsetNum]) ∧
    (tableInSchema sres.results tableName = false →
      (tableRowsEndpoint nodeEnv (some key) schemaRemote dataRemote elapsed
        databaseId tableName limitParam offsetParam).remoteCalls =
        [schemaQueryText]) := by
  constructor <;> intro htab
  · unfold tableRowsEndpoint browseQueryText
    cases hd : executeQuery dataRemote with
    | ok r => simp [hl, hl2, ho, ho2, hmock, hs, htab, hd, Except.map]
    | error e =>
        cases e <;>
          simp [hl, hl2, ho, ho2, hmock, hs, htab, hd, tableRowsCatch, Except.map]
  · unfold tableRowsEndpoint
    simp [hl, hl2, ho, ho2, hmock, hs, htab, Except.map]

/-- Witness for C8 at a concrete request for the users table, page
limit 10 offset 20. -/
theorem C8_browse_query_exact_text_witness :
    tableInSchema [[("name", "users"), ("type", "table"), ("sql", "CREATE TABLE users (id INTEGER)")]] "users" = true ∧
    (tableRowsEndpoint "production" (some sampleKey) (.ok schemaEnvelope)
      (.ok okEnvelope) 5 "db-1" "users" (some "10") (some "20")).remoteCalls =
      [schemaQueryText, "SELECT * FROM \"users\" LIMIT 10 OFFSET 20"] := by
  have h := (C8_browse_query_exact_text "production" sampleKey
    (.ok schemaEnvelope) (.ok okEnvelope) 5 "db-1" "users"
    (some "10") (some "20") 10 20
    { results := [[("name", "users"), ("type", "table"), ("sql", "CREATE TABLE users (id INTEGER)")]]
      duration := none, changes := none, count := none }
    (by decide) (by decide) (by decide) (by decide) (by decide) rfl).1
    (by decide)
  refine ⟨by decide, ?_⟩
  rw [h]
  decide

/-- Every response of the table-rows route is either a 200 or carries
the well-formed empty shape rows = [] and rowCount = 0. -/
theorem tableRows_failure_wellFormed (nodeEnv : String)
    (apiKey : Option ApiKey) (schemaRemote dataRemote : HttpOutcome)
    (elapsed : Nat) (databaseId tableName : String)
    (limitParam offsetParam : Option String) :
    (tableRowsEndpoint nodeEnv apiKey schemaRemote dataRemote elapsed
      databaseId tableName limitParam offsetParam).resp.status = 200 ∨
    ((tableRowsEndpoint nodeEnv apiKey schemaRemote dataRemote elapsed
      databaseId tableName limitParam offsetParam).resp.rows = some [] ∧
     (tableRowsEndpoint nodeEnv apiKey schemaRemote dataRemote elapsed
      databaseId tableName limitParam offsetParam).resp.rowCount = some 0) := by
  unfold tableRowsEndpoint
  cases hl : parseIntJS (limitParam.getD "50") with
  | none => simp [hl]
  | some limitNum =>
    by_cases hv : limitNum < 1 ∨ limitNum > 100
    · simp [hl, hv]
    · by_cases hw : offsetInvalid (offsetParam.getD "0") = true
      · unfold offsetInvalid at hw
        cases ho : parseIntJS (offsetParam.getD "0") with
        | none => simp [hl, hv, ho]
        | some offsetNum =>
            rw [ho] at hw
            simp only [decide_eq_true_eq] at hw
            simp [hl, hv, ho, hw]
      · unfold offsetInvalid at hw
        cases ho : parseIntJS (offsetParam.getD "0") with
        | none => simp [ho] at hw
        | some offsetNum =>
            rw [ho] at hw
            simp only [decide_eq_true_eq] at hw
            cases apiKey with
            | none => simp [hl, hv, ho, hw]
            | some key =>
              cases hmq : devMock nodeEnv key with
              | true =>
                  by_cases ht : tableInSchema (mockSchema databaseId) tableName = true
                  · simp [hl, hv, ho, hw, hmq, ht]
                  · simp only [Bool.not_eq_true] at ht
                    simp [hl, hv, ho, hw, hmq, ht]
              | false =>
                  cases hse : executeQuery schemaRemote with
                  | error e =>
                      cases e <;>
                        simp [hl, hv, ho, hw, hmq, hse, Except.map,
                          tableRowsCatch]
                  | ok sres =>
                      by_cases ht : tableInSchema sres.results tableName = true
                      · cases hd : executeQuery dataRemote with
                        | ok r =>
                            simp [hl, hv, ho, hw, hmq, hse, ht,
                              Except.map, hd]
                        | error e =>
                            cases e <;>
                              simp [hl, hv, ho, hw, hmq, hse, ht,
                                Except.map, hd, tableRowsCatch]
                      · simp only [Bool.not_eq_true] at ht
                        simp [hl, hv, ho, hw, hmq, hse, ht, Except.map]

/-- Counterexample to C9 as stated: the query route's empty-query
rejection (and likewise its missing-credential rejection) is a failure
response that omits the results and rowCount fields entirely. -/
theorem C9_counterexample :
    (queryEndpoint "production" (some sampleKey) (.ok okEnvelope) 0 5
      emptyStorage "db-1" "").resp.status = 400 ∧
    (queryEndpoint "production" (some sampleKey) (.ok okEnvelope) 0 5
      emptyStorage "db-1" "").resp.message = some "Query is required" ∧
    (queryEndpoint "production" (some sampleKey) (.ok okEnvelope) 0 5
      emptyStorage "db-1" "").resp.results = none ∧
    (queryEndpoint "production" (some sampleKey) (.ok okEnvelope) 0 5
      emptyStorage "db-1" "").resp.rowCount = none ∧
    (queryEndpoint "production" none (.ok okEnvelope) 0 5
      emptyStorage "db-1" "SELECT 1").resp.status = 400 ∧
    (queryEndpoint "production" none (.ok okEnvelope) 0 5
      emptyStorage "db-1" "SELECT 1").resp.results = none ∧
    (queryEndpoint "production" none (.ok okEnvelope) 0 5
      emptyStorage "db-1" "SELECT 1").resp.rowCount = none := by
  refine ⟨rfl, rfl, rfl, rfl, rfl, rfl, rfl⟩

/-- C9 (amended): every failure response produced by the query route's
error handler (UserError, SystemError, UnknownError) carries
results = [] and rowCount = 0, and every non-200 response of the
table-rows route carries rows = [] and rowCount = 0; the query route's
empty-query and missing-credential rejections, however, answer with a
message only and omit those fields. -/
theorem C9_failure_shape
    : (∀ (nodeEnv : String) (key : ApiKey) (remote : HttpOutcome)
        (now elapsed : Nat) (st : Storage) (databaseId query : String)
        (e : D1Error),
        (query == "") = false →
        devMock nodeEnv key = false →
        freshCacheHit st (md5Hex query) databaseId now = none →
        executeQuery remote = .error e →
        (queryEndpoint nodeEnv (some key) remote now elapsed st
          databaseId query).resp.results = some [] ∧
        (queryEndpoint nodeEnv (some key) remote now elapsed st
          databaseId query).resp.rowCount = some 0) ∧
      (∀ (nodeEnv : String) (apiKey : Option ApiKey)
        (schemaRemote dataRemote : HttpOutcome) (elapsed : Nat)
        (databaseId tableName : String)
        (limitParam offsetParam : Option String),
        (tableRowsEndpoint nodeEnv apiKey schemaRemote dataRemote elapsed
          databaseId tableName limitParam offsetParam).resp.status = 200 ∨
        ((tableRowsEndpoint nodeEnv apiKey schemaRemote dataRemote elapsed
          databaseId tableName limitParam offsetParam).resp.rows = some [] ∧
         (tableRowsEndpoint nodeEnv apiKey schemaRemote dataRemote elapsed
          databaseId tableName limitParam offsetParam).resp.rowCount = some 0)) := by
  constructor
  · intro nodeEnv key remote now elapsed st databaseId query e hq hmock hc he
    cases e <;>
      · unfold queryEndpoint
        simp [hq, hmock, hc, he]
  · intro nodeEnv apiKey schemaRemote dataRemote elapsed databaseId
      tableName limitParam offsetParam
    exact tableRows_failure_wellFormed nodeEnv apiKey schemaRemote
      dataRemote elapsed databaseId tableName limitParam offsetParam

/-- Witness for the amended C9 at a concrete remote failure and a
concrete invalid-limit browse request. -/
theorem C9_failure_shape_witness :
    ((queryEndpoint "production" (some sampleKey) (.networkError "down")
      0 5 emptyStorage "db-1" "SELECT 1").resp.results = some [] ∧
     (queryEndpoint "production" (some sampleKey) (.networkError "down")
      0 5 emptyStorage "db-1" "SELECT 1").resp.rowCount = some 0) ∧
    ((tableRowsEndpoint "production" (some sampleKey) (.ok schemaEnvelope)
      (.ok okEnvelope) 5 "db-1" "users" (some "0") none).resp.status = 200 ∨
     ((tableRowsEndpoint "production" (some sampleKey) (.ok schemaEnvelope)
      (.ok okEnvelope) 5 "db-1" "users" (some "0") none).resp.rows = some [] ∧
      (tableRowsEndpoint "production" (some sampleKey) (.ok schemaEnvelope)
      (.ok okEnvelope) 5 "db-1" "users" (some "0") none).resp.rowCount = some 0)) := by
  constructor
  · exact C9_failure_shape.1 "production" sampleKey (.networkError "down")
      0 5 emptyStorage "db-1" "SELECT 1" (.unknown "down")
      (by decide) (by decide) rfl rfl
  · exact C9_failure_shape.2 "production" (some sampleKey)
      (.ok schemaEnvelope) (.ok okEnvelope) 5 "db-1" "users" (some "0") none

/-- C10: on a cache miss with a successful remote execution, the fresh
response carries the changes field exactly as delivered by the remote
result and the fresh elapsed time; the later cache hit for the same
pair carries no changes field at all (the entry stores only results,
execution time and row count) and reports the original execution's
executionTime, not the hit's. -/
theorem C10_cache_hit_shape
    (nodeEnv : String) (key : ApiKey) (remote remote2 : HttpOutcome)
    (now1 now2 elapsed1 elapsed2 : Nat) (st0 : Storage)
    (databaseId query : String) (execRes : ExecSuccess)
    (hq : (query == "") = false)
    (hmock : devMock nodeEnv key = false)
    (hget : getQueryResult st0 (md5Hex query) databaseId = none)
    (hrem : executeQuery remote = .ok execRes)
    (hwin : now2 - now1 < 300000) :
    (queryEndpoint nodeEnv (some key) remote now1 elapsed1 st0
      databaseId query).resp.changes = execRes.changes ∧
    (queryEndpoint nodeEnv (some key) remote now1 elapsed1 st0
      databaseId query).resp.cached = some false ∧
    (queryEndpoint nodeEnv (some key) remote now1 elapsed1 st0
      databaseId query).resp.executionTime =
      some (toString elapsed1 ++ "ms") ∧
    (queryEndpoint nodeEnv (some key) remote2 now2 elapsed2
      (queryEndpoint nodeEnv (some key) remote now1 elapsed1 st0
        databaseId query).storage databaseId query).resp.changes = none ∧
    (queryEndpoint nodeEnv (some key) remote2 now2 elapsed2
      (queryEndpoint nodeEnv (some key) remote now1 elapsed1 st0
        databaseId query).storage databaseId query).resp.cached = some true ∧
    (queryEndpoint nodeEnv (some key) remote2 now2 elapsed2
      (queryEndpoint nodeEnv (some key) remote now1 elapsed1 st0
        databaseId query).storage databaseId query).resp.executionTime =
      some (toString elapsed1 ++ "ms") := by
  have hc1 : freshCacheHit st0 (md5Hex query) databaseId now1 = none := by
    unfold freshCacheHit
    rw [hget]
  have e1 := queryEndpoint_miss_success nodeEnv key remote now1 elapsed1 st0
    databaseId query execRes hq hmock hc1 hrem
  have hc2 := freshCacheHit_create_of_none st0 (md5Hex query) databaseId
    execRes.results (some (toString elapsed1 ++ "ms"))
    (some (toString execRes.results.length)) now1 now2 hget hwin
  have e2 := queryEndpoint_hit nodeEnv key remote2 now2 elapsed2
    (queryEndpoint nodeEnv (some key) remote now1 elapsed1 st0
      databaseId query).storage databaseId query _ hq (by rw [e1]; exact hc2)
  exact ⟨by rw [e1], by rw [e1], by rw [e1], by rw [e2], by rw [e2],
    by rw [e2]⟩

/-- Witness for C10 at a concrete pair of calls where the remote result
carries changes = 3. -/
theorem C10_cache_hit_shape_witness :
    (queryEndpoint "production" (some sampleKey) (.ok okEnvelope) 1000 7
      emptyStorage "db-1" "SELECT 1").resp.changes = some 3 ∧
    (queryEndpoint "production" (some sampleKey) (.ok okEnvelope) 1000 7
      emptyStorage "db-1" "SELECT 1").resp.executionTime = some "7ms" ∧
    (queryEndpoint "production" (some sampleKey) (.networkError "down") 2000 9
      (queryEndpoint "production" (some sampleKey) (.ok okEnvelope) 1000 7
        emptyStorage "db-1" "SELECT 1").storage "db-1" "SELECT 1").resp.changes =
      none ∧
    (queryEndpoint "production" (some sampleKey) (.networkError "down") 2000 9
      (queryEndpoint "production" (some sampleKey) (.ok okEnvelope) 1000 7
        emptyStorage "db-1" "SELECT 1").storage "db-1" "SELECT 1").resp.executionTime =
      some "7ms" := by
  have h := C10_cache_hit_shape "production" sampleKey
    (.ok okEnvelope) (.networkError "down") 1000 2000 7 9 emptyStorage
    "db-1" "SELECT 1"
    { results := [[("a", "1")]], duration := some 12
      changes := some 3, count := none }
    (by decide) (by decide) rfl rfl (by decide)
  exact ⟨h.1, h.2.2.1, h.2.2.2.1, h.2.2.2.2.2⟩

end D1Inspector
